import Mathlib

/-
  Shallow embedding of the MCP-News v2.1 analysis core
  (news_analyzer.py, cache_manager.py, response_models.py, mcp_news_main.py).

  Conventions of the embedding:
  * Python str values are Lean String; text is processed as List Char.
  * Python int is Nat where the source only produces non-negative values
    (scores, confidences, times); JSON numbers are Int.
  * async functions are pure functions of an explicit environment: the
    outcome of the one external HTTP call, the configured API key and the
    json.loads decoder are inputs (AnalyzerEnv); the Redis connection is
    explicit state (CacheState) threaded through each operation, with a
    Nat clock for TTL expiry.
  * A Python exception escaping a call is modelled by the explicit failure
    constructors of the environment (HttpOutcome.transportFailure, the
    faulty flag of RedisState, the per-item fault oracle of analyze_batch);
    every except-handler of the source is transcribed as the corresponding
    branch on those constructors.
-/

/-- response_models.ImpactType: the three-valued impact enum. -/
inductive ImpactType where
  | positive
  | negative
  | neutral
deriving DecidableEq, Repr

/-- The str value of each enum member ("Positive" / "Negative" / "Neutral"). -/
def ImpactType.value : ImpactType → String
  | .positive => "Positive"
  | .negative => "Negative"
  | .neutral => "Neutral"

/-- response_models.NewsAnalysisResponse. `.dict()` serialisation and pydantic
    re-validation are modelled as the identity on this record. -/
structure NewsAnalysisResponse where
  impact : ImpactType
  confidence : Nat
  affected_coins : List String
  summary : String
  lang : String
  low_confidence : Bool
  error : Option String
deriving DecidableEq, Repr

/-- A raw batch item dict: `item.get('title', '')` / `item.get('summary', '')`
    read these optional keys with default "". -/
structure RawNewsItem where
  title : Option String
  summary : Option String
deriving DecidableEq, Repr

/-- Python regex word characters, restricted to the ASCII range the
    lexicon terms live in: [A-Za-z0-9_]. -/
def isWordChar (c : Char) : Bool := c.isAlphanum || c == '_'

/-- Case-insensitive test that kw is a leading segment of t
    (re.IGNORECASE compares both sides lowercased). -/
def ciStarts : List Char → List Char → Bool
  | _, [] => true
  | [], _ :: _ => false
  | c :: t, k :: ks => (c.toLower == k.toLower) && ciStarts t ks

/-- The `\b` boundary after a match: end of text, or a non-word character. -/
def boundaryAfter : List Char → Bool
  | [] => true
  | d :: _ => !isWordChar d

/-- Non-overlapping left-to-right count of whole-word, case-insensitive
    occurrences of kw in the text, as re.findall does for the pattern
    `\b<escaped kw>\b`. prevWord records whether the previous character was a
    word character (false at the start of the text); since every lexicon term
    begins and ends with a word character, the leading `\b` holds exactly when
    prevWord is false. Structural recursion on a fuel argument that starts at
    the text length (each step consumes at least one character). -/
def countWordMatchesFuel (kw : List Char) : Nat → List Char → Bool → Nat
  | 0, _, _ => 0
  | _ + 1, [], _ => 0
  | fuel + 1, c :: rest, prevWord =>
    if kw.isEmpty then 0
    else if !prevWord && ciStarts (c :: rest) kw
            && boundaryAfter ((c :: rest).drop kw.length) then
      countWordMatchesFuel kw fuel (rest.drop (kw.length - 1))
        (isWordChar (kw.getLastD ' ')) + 1
    else
      countWordMatchesFuel kw fuel rest (isWordChar c)

/-- len(re.findall(r'\b' + re.escape(kw) + r'\b', text, re.IGNORECASE)). -/
def countKeyword (kw : String) (text : String) : Nat :=
  countWordMatchesFuel kw.data text.data.length text.data false

/-- news_analyzer: the positive sentiment lexicon with weights. -/
def positive_keywords : List (String × Nat) :=
  [("surge", 10), ("soar", 10), ("rally", 9), ("pump", 8), ("moon", 8),
   ("bullish", 9), ("positive", 7), ("gain", 8), ("up", 6), ("rise", 7),
   ("breakout", 9), ("adoption", 8), ("approval", 10), ("partnership", 8),
   ("upgrade", 7), ("milestone", 8), ("breakthrough", 9), ("success", 8),
   ("launch", 7), ("integration", 7), ("buy", 6), ("invest", 7),
   ("green", 5), ("profit", 8), ("ath", 9), ("new high", 9)]

/-- news_analyzer: the negative sentiment lexicon with weights. -/
def negative_keywords : List (String × Nat) :=
  [("crash", 10), ("dump", 9), ("drop", 8), ("fall", 7), ("decline", 7),
   ("bearish", 9), ("negative", 7), ("loss", 8), ("down", 6), ("plunge", 9),
   ("collapse", 10), ("hack", 10), ("scam", 10), ("fraud", 10), ("ban", 9),
   ("regulation", 6), ("crackdown", 8), ("liquidation", 8), ("sell", 6),
   ("red", 5), ("correction", 7), ("dip", 5), ("panic", 8), ("fear", 7)]

/-- Sum over a lexicon of (occurrence count × weight): the loop
    `for keyword, weight in ...: score += matches * weight`. -/
def scoreKeywords (lexicon : List (String × Nat)) (text : String) : Nat :=
  (lexicon.map (fun p => countKeyword p.1 text * p.2)).sum

/-- CryptoNewsAnalyzer._keyword_analysis: weighted lexicon scan, branch on the
    two scores, confidence clamped to 85. -/
def keyword_analysis (text : String) : ImpactType × Nat :=
  let positive_score := scoreKeywords positive_keywords text
  let negative_score := scoreKeywords negative_keywords text
  let ic : ImpactType × Nat :=
    if negative_score < positive_score ∧ 5 < positive_score then
      (.positive, min (positive_score * 2) 100)
    else if positive_score < negative_score ∧ 5 < negative_score then
      (.negative, min (negative_score * 2) 100)
    else
      (.neutral, 40 + (max positive_score negative_score
                        - min positive_score negative_score))
  (ic.1, min ic.2 85)

/-- Exact (case-sensitive) test that kw is a leading segment of t. -/
def startsWithList : List Char → List Char → Bool
  | _, [] => true
  | [], _ :: _ => false
  | c :: t, k :: ks => (c == k) && startsWithList t ks

/-- Python `kw in text`: raw substring containment, no word boundaries. -/
def substrOccurs (kw : List Char) : List Char → Bool
  | [] => kw.isEmpty
  | c :: rest => startsWithList (c :: rest) kw || substrOccurs kw rest

/-- news_analyzer: the fixed escalation trigger terms. -/
def high_impact_keywords : List String :=
  ["regulation", "ban", "approval", "etf", "sec", "hack"]

/-- CryptoNewsAnalyzer._needs_llm_analysis: escalate when the keyword
    confidence is below 60, or any trigger term occurs in the (already
    lowercased) text as a raw substring. -/
def needs_llm_analysis (keyword_result : ImpactType × Nat) (text : String) : Bool :=
  if keyword_result.2 < 60 then true
  else if high_impact_keywords.any (fun kw => substrOccurs kw.data text.data) then true
  else false

/-- news_analyzer: the coin alias table. Each source pattern
    `\balias1\b|\balias2\b` is two whole-word alternatives mapped to one
    canonical symbol. -/
def crypto_patterns : List ((String × String) × String) :=
  [(("btc", "bitcoin"), "BTC"), (("eth", "ethereum"), "ETH"),
   (("bnb", "binance"), "BNB"), (("ada", "cardano"), "ADA"),
   (("sol", "solana"), "SOL"), (("xrp", "ripple"), "XRP"),
   (("dot", "polkadot"), "DOT"), (("avax", "avalanche"), "AVAX"),
   (("matic", "polygon"), "MATIC"), (("link", "chainlink"), "LINK")]

/-- re.search presence of a whole-word occurrence. -/
def wordOccurs (kw : String) (text : String) : Bool :=
  0 < countKeyword kw text

/-- Python str.lower, character by character (the texts involved are
    processed per character, so this is List.map over the data). -/
def strLower (s : String) : String := ⟨s.data.map Char.toLower⟩

/-- Keep the first occurrence of each string, dropping later duplicates. -/
def dedupGo : List String → List String → List String
  | [], _ => []
  | x :: xs, seen =>
    if seen.contains x then dedupGo xs seen else x :: dedupGo xs (x :: seen)

/-- First-occurrence deduplication of a list of strings. -/
def dedupKeepFirst (l : List String) : List String := dedupGo l []

/-- CryptoNewsAnalyzer._detect_coins: scan the lowercased text with each alias
    pattern; collect matched symbols; `list(set(...))` deduplicates (symbols
    are pairwise distinct here, and Python set iteration order is modelled as
    first-occurrence order). -/
def detect_coins (text : String) : List String :=
  let text_lower := strLower text
  dedupKeepFirst (crypto_patterns.filterMap (fun p =>
    if wordOccurs p.1.1 text_lower || wordOccurs p.1.2 text_lower then some p.2
    else none))

/-- The Arabic Unicode range tested by the compiled pattern [؀-ۿ]. -/
def isArabicChar (c : Char) : Bool := 0x600 ≤ c.toNat && c.toNat ≤ 0x6FF

/-- Language detection of _analyze_news_item: "ar" when any character of
    title+summary is in the Arabic range, else "en". -/
def detect_lang (text : String) : String :=
  if text.data.any isArabicChar then "ar" else "en"

/-- The three-level confidence label of _generate_summary. -/
def confidenceLabel (confidence : Nat) : String :=
  if 75 < confidence then "High" else if 50 < confidence then "Medium" else "Low"

/-- title[:80] + "..." when the title exceeds 80 characters. -/
def truncateTitle (title : String) : String :=
  if 80 < title.data.length then (⟨title.data.take 80⟩ : String) ++ "..." else title

/-- CryptoNewsAnalyzer._generate_summary: formatted broadcast line; the
    label is computed from the confidence argument the caller passes. -/
def generate_summary (title : String) (impact : ImpactType) (confidence : Nat)
    (lang : String) : String :=
  let short_title := truncateTitle title
  let confidence_text := confidenceLabel confidence
  if lang == "ar" then
    short_title ++ " - تأثير " ++ impact.value ++ " (" ++ confidence_text ++ " ثقة)"
  else
    short_title ++ " - " ++ impact.value ++ " impact (" ++ confidence_text ++ " confidence)"

/-- A decoded JSON scalar value, restricted to the shapes the parser branches
    on (JSON numbers are modelled as integers). -/
inductive JsonVal where
  | jnull
  | jbool (b : Bool)
  | jnum (n : Int)
  | jstr (s : String)
deriving DecidableEq, Repr

/-- A decoded top-level JSON object (a Python dict), as an association list. -/
def JsonObj := List (String × JsonVal)

/-- dict.get(key, default) without the default: first binding of key. -/
def jsonGet (data : JsonObj) (key : String) : Option JsonVal :=
  (data.find? (fun p => p.1 == key)).map (fun p => p.2)

/-- ImpactType(s): the str-enum constructor; raises ValueError (modelled as
    none) on anything but the three member values. -/
def impactOfString (s : String) : Option ImpactType :=
  if s == "Positive" then some .positive
  else if s == "Negative" then some .negative
  else if s == "Neutral" then some .neutral
  else none

/-- The regex search `\x7b.*\x7d` with DOTALL on the reply: a match exists
    iff some opening brace precedes some closing brace; the leftmost-longest
    match then spans from the first opening brace to the last closing brace. -/
def extractJson (resp : String) : Option String :=
  let cs := resp.data
  match cs.indexOf? '{', cs.reverse.indexOf? '}' with
  | some i, some r =>
    let j := cs.length - 1 - r
    if i < j then some ⟨(cs.drop i).take (j + 1 - i)⟩ else none
  | _, _ => none

/-- The field-validation stage of _parse_llm_response, applied to the dict
    returned by json.loads. Transcribes:
    `ImpactType(data.get("impact", "Neutral"))` (ValueError on a value outside
    the enum, TypeError on a non-string: both caught, giving none);
    `min(max(data.get("confidence", 50), 0), 100)` (TypeError on a
    non-numeric value: caught, giving none; a bool is an int in Python);
    `data.get("summary", "Analysis completed")` (a non-string summary fails
    pydantic validation inside the same try block: none). -/
def parseLlmFields (data : JsonObj) (lang : String) : Option NewsAnalysisResponse :=
  match (jsonGet data "impact").getD (.jstr "Neutral") with
  | .jstr s =>
    match impactOfString s with
    | none => none
    | some impact =>
      match (jsonGet data "confidence").getD (.jnum 50) with
      | .jnum n =>
        match (jsonGet data "summary").getD (.jstr "Analysis completed") with
        | .jstr summ =>
          some { impact := impact, confidence := (min (max n 0) 100).toNat,
                 affected_coins := [], summary := summ, lang := lang,
                 low_confidence := false, error := none }
        | _ => none
      | .jbool b =>
        match (jsonGet data "summary").getD (.jstr "Analysis completed") with
        | .jstr summ =>
          some { impact := impact, confidence := if b then 1 else 0,
                 affected_coins := [], summary := summ, lang := lang,
                 low_confidence := false, error := none }
        | _ => none
      | _ => none
  | _ => none

/-- CryptoNewsAnalyzer._parse_llm_response: extract the first JSON object from
    the free-form reply (none when absent), decode it with json.loads (the
    `loads` argument models that library call: none on a parse failure or a
    non-dict document), then validate the fields; every exception inside the
    try block yields None. -/
def parse_llm_response (loads : String → Option JsonObj) (response : String)
    (lang : String) : Option NewsAnalysisResponse :=
  match extractJson response with
  | none => none
  | some s =>
    match loads s with
    | none => none
    | some data => parseLlmFields data lang

/-- The outcome of the single HTTP call of _llm_analysis: either the request
    raised (timeout, connection failure, or a malformed completion payload
    while reading choices/message/content), or a status and the completion
    content string were obtained. -/
inductive HttpOutcome where
  | transportFailure (msg : String)
  | response (status : Nat) (content : String)

/-- The external inputs of the analyzer: the OPENAI_API_KEY environment
    variable, the outcome of the LLM HTTP call, and the json.loads decoder. -/
structure AnalyzerEnv where
  api_key : Option String
  outcome : HttpOutcome
  loads : String → Option JsonObj

/-- CryptoNewsAnalyzer._llm_analysis: None when no key is configured; the
    whole request is inside a try/except returning None, so a transport
    failure gives None; a non-200 status gives None; otherwise the completion
    content is parsed. -/
def llm_analysis (env : AnalyzerEnv) (lang : String) : Option NewsAnalysisResponse :=
  match env.api_key with
  | none => none
  | some _ =>
    match env.outcome with
    | .transportFailure _ => none
    | .response status content =>
      if status == 200 then parse_llm_response env.loads content lang else none

/-- The keyword-fallback verdict of _analyze_news_item (lines 150-163):
    impact and raw confidence from the keyword stage, confidence capped at 75,
    the summary generated from the raw (uncapped) confidence, and
    low_confidence set exactly when the raw confidence is below 60. -/
def keywordFallback (title summary : String) : NewsAnalysisResponse :=
  let full_text := strLower (title ++ " " ++ summary)
  let keyword_result := keyword_analysis full_text
  let lang := detect_lang (title ++ summary)
  let affected_coins := detect_coins (title ++ summary)
  { impact := keyword_result.1,
    confidence := min keyword_result.2 75,
    affected_coins := affected_coins,
    summary := generate_summary title keyword_result.1 keyword_result.2 lang,
    lang := lang,
    low_confidence := decide (keyword_result.2 < 60),
    error := none }

/-- CryptoNewsAnalyzer._analyze_news_item: keyword scan on the lowercased
    combined text, language and coin detection, escalation decision, optional
    LLM call (any LLM exception is caught, falling through), coin override of
    a usable LLM verdict (`affected_coins or llm_result.affected_coins`), and
    otherwise the keyword fallback. -/
def analyze_news_item (env : AnalyzerEnv) (title summary : String) : NewsAnalysisResponse :=
  let full_text := strLower (title ++ " " ++ summary)
  let keyword_result := keyword_analysis full_text
  let lang := detect_lang (title ++ summary)
  let affected_coins := detect_coins (title ++ summary)
  let llmRes :=
    if needs_llm_analysis keyword_result full_text then llm_analysis env lang
    else none
  match llmRes with
  | some r =>
    { r with affected_coins :=
        if affected_coins.isEmpty then r.affected_coins else affected_coins }
  | none => keywordFallback title summary

/-- The placeholder dict appended by analyze_batch for an item whose analysis
    raised (the dict carries no low_confidence key; pydantic's default for the
    absent field is false). -/
def placeholderVerdict (msg : String) : NewsAnalysisResponse :=
  { impact := .neutral, confidence := 0, affected_coins := [],
    summary := "Analysis failed", lang := "en",
    low_confidence := false, error := some msg }

/-- CryptoNewsAnalyzer.analyze_batch: one _analyze_news_item task per item in
    input order, gathered with return_exceptions=True; the fault oracle gives,
    per index, the message of an uncaught exception of that item's task (none
    when the task completes); an exception result becomes the placeholder
    verdict at its position, a normal result its `.dict()`. -/
def analyze_batch (env : AnalyzerEnv) (fault : Nat → Option String)
    (items : List RawNewsItem) : List NewsAnalysisResponse :=
  items.enum.map (fun p =>
    match fault p.1 with
    | some msg => placeholderVerdict msg
    | none => analyze_news_item env (p.2.title.getD "") (p.2.summary.getD ""))

/-- The "news" argument of a tools/call batch request: either a JSON value
    that is not a list, or the list of items. -/
inductive MCPBatchArg where
  | notList
  | items (l : List RawNewsItem)

/-- The batch branch of mcp_endpoint (mcp_news_main.py lines 147-165):
    `if not news_items or not isinstance(news_items, list)` raises
    HTTPException(400, "Invalid batch news format") before analyze_batch runs;
    otherwise the batch results are returned. -/
def mcp_batch_endpoint (env : AnalyzerEnv) (fault : Nat → Option String) :
    MCPBatchArg → Except String (List NewsAnalysisResponse)
  | .notList => .error "Invalid batch news format"
  | .items l =>
    if l.isEmpty then .error "Invalid batch news format"
    else .ok (analyze_batch env fault l)

/-- The /analyze REST endpoint: pydantic validates BatchNewsRequest
    (min_items=1, max_items=50) and rejects with a 422 client error before the
    handler body runs; a valid request reaches analyze_batch. -/
def rest_analyze_endpoint (env : AnalyzerEnv) (fault : Nat → Option String)
    (l : List RawNewsItem) : Except String (List NewsAnalysisResponse) :=
  if l.length < 1 ∨ 50 < l.length then .error "request validation error"
  else .ok (analyze_batch env fault l)

/-- Whether an endpoint outcome is a success (not a client error). -/
def exceptIsOk : Except String (List NewsAnalysisResponse) → Bool
  | .ok _ => true
  | .error _ => false

/-- The state of a connected Redis instance. `faulty` models a connection on
    which every operation raises (the except branches of cache_manager.py);
    entries carry their absolute expiry instant (setex key ttl value stores
    until now + ttl, and an expired entry behaves as absent). Analysis values
    round-trip through JSON; that serialisation is modelled as the identity. -/
structure RedisState where
  faulty : Bool
  store : List (String × (NewsAnalysisResponse × Nat))
  rateStore : List (String × (Nat × Nat))
deriving DecidableEq

/-- CacheManager.stats: the hit/miss counters. -/
structure CacheStats where
  hits : Nat
  misses : Nat
  total : Nat
deriving DecidableEq, Repr

/-- CacheManager: self.redis is None before connect (and connect raises when
    the store is unreachable, leaving it None in the degraded deployments the
    spec describes). -/
structure CacheState where
  redis : Option RedisState
  stats : CacheStats
deriving DecidableEq

/-- redis GET of an analysis entry at the given instant: the stored value
    while unexpired, else absent. -/
def redisLookup (now : Nat) (store : List (String × (NewsAnalysisResponse × Nat)))
    (key : String) : Option NewsAnalysisResponse :=
  match store.find? (fun p => p.1 == key) with
  | some p => if now < p.2.2 then some p.2.1 else none
  | none => none

/-- redis GET of a rate-limit counter (count and expiry) at the given
    instant. -/
def rateLookup (now : Nat) (rs : List (String × (Nat × Nat))) (key : String) :
    Option (Nat × Nat) :=
  match rs.find? (fun p => p.1 == key) with
  | some p => if now < p.2.2 then some p.2 else none
  | none => none

/-- CacheManager.get: None when not connected; any Redis error is caught and
    gives None; a hit bumps hits/total, a miss bumps misses/total. -/
def cache_get (now : Nat) (st : CacheState) (key : String) :
    Option NewsAnalysisResponse × CacheState :=
  match st.redis with
  | none => (none, st)
  | some r =>
    if r.faulty then (none, st)
    else
      match redisLookup now r.store key with
      | some v =>
        let stats1 : CacheStats :=
          ⟨st.stats.hits + 1, st.stats.misses, st.stats.total + 1⟩
        (some v, { st with stats := stats1 })
      | none =>
        let stats1 : CacheStats :=
          ⟨st.stats.hits, st.stats.misses + 1, st.stats.total + 1⟩
        (none, { st with stats := stats1 })

/-- CacheManager.set: False when not connected; any Redis error is caught and
    gives False; otherwise setex stores the value until now + ttl. -/
def cache_set (now : Nat) (st : CacheState) (key : String)
    (value : NewsAnalysisResponse) (ttl : Nat) : Bool × CacheState :=
  match st.redis with
  | none => (false, st)
  | some r =>
    if r.faulty then (false, st)
    else
      (true, { st with redis := some { r with
        store := (key, (value, now + ttl)) :: r.store.filter (fun p => !(p.1 == key)) } })

/-- CacheManager.check_rate_limit: True when not connected; any Redis error is
    caught and gives True; a first request in the window creates the counter
    at 1 with the window TTL; a counter at or above the limit refuses; else
    the counter is incremented (keeping its expiry). -/
def check_rate_limit (now : Nat) (st : CacheState) (identifier : String)
    (limit : Nat) (window : Nat) : Bool × CacheState :=
  match st.redis with
  | none => (true, st)
  | some r =>
    if r.faulty then (true, st)
    else
      let key := "rate_limit:" ++ identifier
      match rateLookup now r.rateStore key with
      | none =>
        (true, { st with redis := some { r with
          rateStore := (key, (1, now + window)) :: r.rateStore.filter (fun p => !(p.1 == key)) } })
      | some ce =>
        if limit ≤ ce.1 then (false, st)
        else
          (true, { st with redis := some { r with
            rateStore := (key, (ce.1 + 1, ce.2)) :: r.rateStore.filter (fun p => !(p.1 == key)) } })

/-- The cache key of analyze_single: "news:" followed by hash(title+summary).
    Python's hash is deterministic within a process; it is modelled as the
    concatenated text itself (only same-input determinism matters here). -/
def cacheKey (title summary : String) : String := "news:" ++ (title ++ summary)

/-- CryptoNewsAnalyzer.analyze_single: cache lookup first (a hit returns the
    cached verdict re-validated through NewsAnalysisResponse(**dict),
    modelled as the identity); on a miss the item is analyzed and the result
    cached for 43200 seconds. -/
def analyze_single (env : AnalyzerEnv) (now : Nat) (title summary : String)
    (st : CacheState) : NewsAnalysisResponse × CacheState :=
  let key := cacheKey title summary
  match cache_get now st key with
  | (some cached, st1) => (cached, st1)
  | (none, st1) =>
    let result := analyze_news_item env title summary
    let set := cache_set now st1 key result 43200
    (result, set.2)



/-- An analyzer environment with no LLM credential configured (and a transport
    that would fail anyway), used to exercise the keyword-only paths. -/
def envNoKey : AnalyzerEnv :=
  { api_key := none, outcome := .transportFailure "connection failed",
    loads := fun _ => none }

/-- A fault oracle under which no batch item raises. -/
def noFault : Nat → Option String := fun _ => none

/-- A 51-item batch, above the documented 50-item bound. -/
def oversizedBatch : List RawNewsItem := List.replicate 51 ⟨some "btc", some "up"⟩

/-- A json.loads model defined on the single document an empty LLM-reply
    object produces: json.loads applied to the two-character text consisting
    of an opening and a closing brace yields the empty dict. -/
def loadsEmptyObj : String → Option JsonObj :=
  fun s => if s == "\x7b\x7d" then some [] else none

/-- A fault oracle under which exactly the item at index 1 raises. -/
def faultAtOne : Nat → Option String := fun i => if i == 1 then some "boom" else none

/-- A concrete two-item batch. -/
def itemsTwo : List RawNewsItem :=
  [⟨some "btc will surge today", some "up"⟩, ⟨some "t", some "s"⟩]

/-- A healthy, empty cache store. -/
def stOkEmpty : CacheState := ⟨some ⟨false, [], []⟩, ⟨0, 0, 0⟩⟩

/-- A cache manager that never connected to its store. -/
def stDown : CacheState := ⟨none, ⟨0, 0, 0⟩⟩

/-- Case form of _keyword_analysis: the scorer equals the three-branch
    decision rule followed by the final clamp at 85. -/
lemma keyword_analysis_cases (text : String) :
    keyword_analysis text =
      (if scoreKeywords negative_keywords text < scoreKeywords positive_keywords text
          ∧ 5 < scoreKeywords positive_keywords text then
        (ImpactType.positive, min (min (scoreKeywords positive_keywords text * 2) 100) 85)
      else if scoreKeywords positive_keywords text < scoreKeywords negative_keywords text
          ∧ 5 < scoreKeywords negative_keywords text then
        (ImpactType.negative, min (min (scoreKeywords negative_keywords text * 2) 100) 85)
      else
        (ImpactType.neutral, min (40 + (max (scoreKeywords positive_keywords text)
            (scoreKeywords negative_keywords text)
          - min (scoreKeywords positive_keywords text)
            (scoreKeywords negative_keywords text))) 85)) := by
  simp only [keyword_analysis]
  split_ifs <;> rfl

/-- C2: keyword scoring is pure and deterministic; the returned confidence
    always lies in [0, 85] (it is a Nat, so 0 is a lower bound by type);
    the impact is Positive exactly when positiveScore > negativeScore and
    positiveScore > 5, with confidence min(2 x positiveScore, 100); Negative
    under the symmetric condition; Neutral otherwise with confidence
    40 + |positiveScore - negativeScore|; each branch is finally clamped at
    85. Scores are whole-word, case-insensitive occurrence counts weighted by
    the lexicon (scoreKeywords). -/
theorem keyword_scoring_decision_rule (text : String) :
    (keyword_analysis text).2 ≤ 85 ∧
    ((keyword_analysis text).1 = ImpactType.positive ↔
      (scoreKeywords negative_keywords text < scoreKeywords positive_keywords text
        ∧ 5 < scoreKeywords positive_keywords text)) ∧
    ((keyword_analysis text).1 = ImpactType.negative ↔
      (scoreKeywords positive_keywords text < scoreKeywords negative_keywords text
        ∧ 5 < scoreKeywords negative_keywords text)) ∧
    ((scoreKeywords negative_keywords text < scoreKeywords positive_keywords text
        ∧ 5 < scoreKeywords positive_keywords text) →
      (keyword_analysis text).2 = min (min (scoreKeywords positive_keywords text * 2) 100) 85) ∧
    ((scoreKeywords positive_keywords text < scoreKeywords negative_keywords text
        ∧ 5 < scoreKeywords negative_keywords text) →
      (keyword_analysis text).2 = min (min (scoreKeywords negative_keywords text * 2) 100) 85) ∧
    ((keyword_analysis text).1 = ImpactType.neutral →
      (keyword_analysis text).2 = min (40 + (max (scoreKeywords positive_keywords text)
          (scoreKeywords negative_keywords text)
        - min (scoreKeywords positive_keywords text)
          (scoreKeywords negative_keywords text))) 85) := by
  rw [keyword_analysis_cases text]
  split_ifs with h1 h2 <;>
    refine ⟨by omega, ?_, ?_, ?_, ?_, ?_⟩ <;> simp <;> omega

/-- C2 witness: on a concrete text the scorer takes the negative branch with
    confidence within the clamp. -/
theorem keyword_scoring_decision_rule_witness :
    (keyword_analysis "market will crash and dump").2 ≤ 85 ∧
    (keyword_analysis "market will crash and dump").1 = ImpactType.negative :=
  ⟨(keyword_scoring_decision_rule "market will crash and dump").1,
   ((keyword_scoring_decision_rule "market will crash and dump").2.2.1).mpr (by decide)⟩

/-- C3: the escalation decision is true iff the keyword confidence is below
    60 or the text contains one of the six fixed trigger terms as a raw
    substring; in particular, absent trigger terms it escalates at
    confidence 59 and does not escalate at confidence 60. -/
theorem escalation_policy_rule :
    (∀ (imp : ImpactType) (c : Nat) (text : String),
      needs_llm_analysis (imp, c) text = true ↔
        (c < 60 ∨ ∃ kw ∈ high_impact_keywords, substrOccurs kw.data text.data = true)) ∧
    (∀ (imp : ImpactType) (text : String),
      (∀ kw ∈ high_impact_keywords, substrOccurs kw.data text.data = false) →
        needs_llm_analysis (imp, 59) text = true ∧
        needs_llm_analysis (imp, 60) text = false) := by
  have key : ∀ (imp : ImpactType) (c : Nat) (text : String),
      needs_llm_analysis (imp, c) text = true ↔
        (c < 60 ∨ ∃ kw ∈ high_impact_keywords, substrOccurs kw.data text.data = true) := by
    intro imp c text
    by_cases h1 : c < 60
    · simp [needs_llm_analysis, h1]
    · simp [needs_llm_analysis, h1, List.any_eq_true]
  refine ⟨key, ?_⟩
  intro imp text h
  constructor
  · exact (key imp 59 text).2 (Or.inl (by omega))
  · by_contra hc
    rcases (key imp 60 text).1 (by simpa using hc) with h60 | ⟨kw, hkw, hocc⟩
    · omega
    · rw [h kw hkw] at hocc
      exact Bool.false_ne_true hocc

/-- C3 witness: on a trigger-free text the policy escalates at 59 and not at
    60. -/
theorem escalation_policy_rule_witness :
    needs_llm_analysis (.neutral, 59) "btc climbs" = true ∧
    needs_llm_analysis (.neutral, 60) "btc climbs" = false :=
  escalation_policy_rule.2 .neutral "btc climbs" (by decide)

/-- Helper: when no LLM verdict is used (escalation not triggered, or the
    LLM stage returned None), _analyze_news_item returns the keyword
    fallback verdict. -/
lemma analyze_news_item_eq_fallback (env : AnalyzerEnv) (title summary : String)
    (h : needs_llm_analysis (keyword_analysis (strLower (title ++ " " ++ summary)))
          (strLower (title ++ " " ++ summary)) = false
        ∨ llm_analysis env (detect_lang (title ++ summary)) = none) :
    analyze_news_item env title summary = keywordFallback title summary := by
  simp only [analyze_news_item]
  rcases h with h | h
  · simp [h]
  · simp [h]

/-- C1: analyze_batch preserves length and order; a faulted item yields
    exactly the placeholder verdict (Neutral, confidence 0, no coins,
    summary "Analysis failed", lang "en", the exception message as error)
    at its own position, and every non-faulted item yields its normal
    _analyze_news_item verdict at its own position. -/
theorem batch_isolation (env : AnalyzerEnv) (fault : Nat → Option String)
    (items : List RawNewsItem) :
    (analyze_batch env fault items).length = items.length ∧
    (∀ i msg, i < items.length → fault i = some msg →
      (analyze_batch env fault items).getD i (placeholderVerdict "") =
        placeholderVerdict msg) ∧
    (∀ i, i < items.length → fault i = none →
      (analyze_batch env fault items).getD i (placeholderVerdict "") =
        analyze_news_item env ((items.getD i ⟨none, none⟩).title.getD "")
          ((items.getD i ⟨none, none⟩).summary.getD "")) := by
  refine ⟨by simp [analyze_batch], ?_, ?_⟩
  · intro i msg hi hf
    simp [analyze_batch, List.getD_eq_getElem?_getD, List.getElem?_map,
      List.getElem?_enum, List.getElem?_eq_getElem hi, hf,
      List.getD_eq_getElem _ _ hi]
  · intro i hi hf
    simp [analyze_batch, List.getD_eq_getElem?_getD, List.getElem?_map,
      List.getElem?_enum, List.getElem?_eq_getElem hi, hf,
      List.getD_eq_getElem _ _ hi]

/-- C1 witness: a two-item batch whose second item raises keeps length 2,
    the placeholder at index 1 and the normal verdict at index 0. -/
theorem batch_isolation_witness :
    (analyze_batch envNoKey faultAtOne itemsTwo).length = itemsTwo.length ∧
    (analyze_batch envNoKey faultAtOne itemsTwo).getD 1 (placeholderVerdict "")
      = placeholderVerdict "boom" ∧
    (analyze_batch envNoKey faultAtOne itemsTwo).getD 0 (placeholderVerdict "")
      = analyze_news_item envNoKey "btc will surge today" "up" :=
  ⟨(batch_isolation envNoKey faultAtOne itemsTwo).1,
   (batch_isolation envNoKey faultAtOne itemsTwo).2.1 1 "boom" (by decide) rfl,
   by
     have h := (batch_isolation envNoKey faultAtOne itemsTwo).2.2 0 (by decide) rfl
     exact h⟩

/-- C4: on the keyword-fallback path the final verdict is the keyword
    fallback: confidence = min(rawKeywordConfidence, 75), low_confidence
    exactly when the raw keyword confidence is below 60, impact and the
    detected coin set taken unchanged from the keyword and coin-detection
    stages. -/
theorem keyword_fallback_verdict (env : AnalyzerEnv) (title summary : String)
    (h : needs_llm_analysis (keyword_analysis (strLower (title ++ " " ++ summary)))
          (strLower (title ++ " " ++ summary)) = false
        ∨ llm_analysis env (detect_lang (title ++ summary)) = none) :
    analyze_news_item env title summary = keywordFallback title summary ∧
    (analyze_news_item env title summary).confidence
      = min (keyword_analysis (strLower (title ++ " " ++ summary))).2 75 ∧
    ((analyze_news_item env title summary).low_confidence = true ↔
      (keyword_analysis (strLower (title ++ " " ++ summary))).2 < 60) ∧
    (analyze_news_item env title summary).impact
      = (keyword_analysis (strLower (title ++ " " ++ summary))).1 ∧
    (analyze_news_item env title summary).affected_coins
      = detect_coins (title ++ summary) := by
  have he := analyze_news_item_eq_fallback env title summary h
  rw [he]
  simp [keywordFallback]

/-- C4 witness: with no LLM credential a concrete item takes the fallback
    path and keeps its detected coins. -/
theorem keyword_fallback_verdict_witness :
    analyze_news_item envNoKey "Bitcoin SEC regulation" "markets react"
      = keywordFallback "Bitcoin SEC regulation" "markets react" ∧
    (analyze_news_item envNoKey "Bitcoin SEC regulation" "markets react").affected_coins
      = detect_coins ("Bitcoin SEC regulation" ++ "markets react") :=
  ⟨(keyword_fallback_verdict envNoKey "Bitcoin SEC regulation" "markets react"
      (Or.inr rfl)).1,
   (keyword_fallback_verdict envNoKey "Bitcoin SEC regulation" "markets react"
      (Or.inr rfl)).2.2.2.2⟩

/-- C5: the LLM stage never raises: with no credential, a transport
    failure/timeout, or a non-success HTTP status it returns None
    (unavailable), and the pipeline then returns the keyword fallback
    verdict instead of surfacing an error. -/
theorem llm_unavailability_fallback (env : AnalyzerEnv)
    (h : env.api_key = none
        ∨ (∃ m, env.outcome = HttpOutcome.transportFailure m)
        ∨ (∃ status content, env.outcome = HttpOutcome.response status content
            ∧ status ≠ 200)) :
    (∀ lang, llm_analysis env lang = none) ∧
    (∀ title summary,
      analyze_news_item env title summary = keywordFallback title summary) := by
  have hnone : ∀ lang, llm_analysis env lang = none := by
    intro lang
    rcases h with h | ⟨m, h⟩ | ⟨status, content, h, hst⟩
    · simp [llm_analysis, h]
    · cases hk : env.api_key <;> simp [llm_analysis, hk, h]
    · cases hk : env.api_key <;> simp [llm_analysis, hk, h, hst]
  exact ⟨hnone, fun t s => analyze_news_item_eq_fallback env t s (Or.inr (hnone _))⟩

/-- C5 witness: with no API key the LLM stage is unavailable and a concrete
    item falls back to the keyword verdict. -/
theorem llm_unavailability_fallback_witness :
    llm_analysis envNoKey "en" = none ∧
    analyze_news_item envNoKey "hello" "world" = keywordFallback "hello" "world" :=
  ⟨(llm_unavailability_fallback envNoKey (Or.inl rfl)).1 "en",
   (llm_unavailability_fallback envNoKey (Or.inl rfl)).2 "hello" "world"⟩

/-- C10: on the keyword-fallback path the confidence label in the generated
    summary is computed from the raw keyword confidence before the final 75
    cap: for raw confidence in 76-85 the verdict's confidence field is
    exactly 75 (hence below the raw value) while the label reads "High". -/
theorem summary_label_precedes_cap (env : AnalyzerEnv) (title summary : String)
    (hfall : needs_llm_analysis (keyword_analysis (strLower (title ++ " " ++ summary)))
          (strLower (title ++ " " ++ summary)) = false
        ∨ llm_analysis env (detect_lang (title ++ summary)) = none)
    (hlo : 76 ≤ (keyword_analysis (strLower (title ++ " " ++ summary))).2)
    (hhi : (keyword_analysis (strLower (title ++ " " ++ summary))).2 ≤ 85) :
    (analyze_news_item env title summary).confidence = 75 ∧
    (analyze_news_item env title summary).confidence
      < (keyword_analysis (strLower (title ++ " " ++ summary))).2 ∧
    confidenceLabel (keyword_analysis (strLower (title ++ " " ++ summary))).2 = "High" ∧
    (analyze_news_item env title summary).summary
      = generate_summary title
          (keyword_analysis (strLower (title ++ " " ++ summary))).1
          (keyword_analysis (strLower (title ++ " " ++ summary))).2
          (detect_lang (title ++ summary)) := by
  have he := analyze_news_item_eq_fallback env title summary hfall
  rw [he]
  simp only [keywordFallback]
  refine ⟨by omega, by omega, ?_, trivial⟩
  simp only [confidenceLabel]
  rw [if_pos (by omega)]

/-- C10 witness: a concrete text with raw keyword confidence 80 produces a
    capped confidence of 75 and a "High" label. -/
theorem summary_label_precedes_cap_witness :
    (analyze_news_item envNoKey "surge surge surge surge" "x").confidence = 75 ∧
    confidenceLabel
      (keyword_analysis (strLower ("surge surge surge surge" ++ " " ++ "x"))).2
      = "High" :=
  ⟨(summary_label_precedes_cap envNoKey "surge surge surge surge" "x"
      (Or.inr rfl) (by decide) (by decide)).1,
   (summary_label_precedes_cap envNoKey "surge surge surge surge" "x"
      (Or.inr rfl) (by decide) (by decide)).2.2.1⟩


/-- Helper: any verdict produced by the field-validation stage has
    confidence at most 100, low_confidence false, an empty coin set, the
    caller's lang and no error. -/
lemma parseLlmFields_sound (data : JsonObj) (lang : String) (v : NewsAnalysisResponse)
    (h : parseLlmFields data lang = some v) :
    v.confidence ≤ 100 ∧ v.low_confidence = false ∧ v.affected_coins = [] ∧
    v.lang = lang ∧ v.error = none := by
  unfold parseLlmFields at h
  repeat' split at h
  all_goals try cases h
  all_goals refine ⟨?_, rfl, rfl, rfl, rfl⟩
  all_goals first
    | (show (1 : Nat) ≤ 100; omega)
    | (show (0 : Nat) ≤ 100; omega)
    | (show ((_ ⊔ (0 : Int)) ⊓ 100).toNat ≤ 100; omega)

/-- C6 (amended): the parser returns unavailable when no JSON object occurs
    in the reply; any successfully parsed verdict has confidence clamped to
    [0,100] (impact is enum-valued by construction), low_confidence false
    and an empty coin set; an impact string outside the enum makes it
    unavailable; but fields missing from the object are filled with the
    defaults Neutral / 50 / "Analysis completed" rather than making the
    reply unavailable. -/
theorem parse_llm_response_validation :
    (∀ (loads : String → Option JsonObj) (resp lang : String),
      extractJson resp = none → parse_llm_response loads resp lang = none) ∧
    (∀ (loads : String → Option JsonObj) (resp lang : String)
        (v : NewsAnalysisResponse),
      parse_llm_response loads resp lang = some v →
        v.confidence ≤ 100 ∧ v.low_confidence = false ∧ v.affected_coins = [] ∧
        v.lang = lang ∧ v.error = none) ∧
    (∀ (data : JsonObj) (lang s : String),
      jsonGet data "impact" = some (JsonVal.jstr s) → impactOfString s = none →
      parseLlmFields data lang = none) ∧
    (∀ lang, parseLlmFields [] lang =
      some { impact := .neutral, confidence := 50, affected_coins := [],
             summary := "Analysis completed", lang := lang,
             low_confidence := false, error := none }) := by
  refine ⟨?_, ?_, ?_, fun lang => rfl⟩
  · intro loads resp lang h
    simp [parse_llm_response, h]
  · intro loads resp lang v h
    unfold parse_llm_response at h
    split at h
    · cases h
    · split at h
      · cases h
      · exact parseLlmFields_sound _ _ _ h
  · intro data lang s h1 h2
    simp [parseLlmFields, h1, h2]

/-- C6 witness: a reply with no JSON object is unavailable, and the empty
    object parses to the defaulted verdict. -/
theorem parse_llm_response_validation_witness :
    parse_llm_response loadsEmptyObj "no json here" "en" = none ∧
    parseLlmFields [] "en" =
      some ⟨.neutral, 50, [], "Analysis completed", "en", false, none⟩ :=
  ⟨parse_llm_response_validation.1 loadsEmptyObj "no json here" "en" (by decide),
   parse_llm_response_validation.2.2.2 "en"⟩

/-- C6 counterexample: the reply consisting of an empty JSON object, in
    which every one of impact/confidence/summary is missing, parses
    successfully to the defaulted verdict instead of returning unavailable,
    contradicting the claim that missing required fields yield
    unavailable. -/
theorem parse_llm_missing_fields_defaulted_cex :
    parse_llm_response loadsEmptyObj "\x7b\x7d" "en" =
      some { impact := .neutral, confidence := 50, affected_coins := [],
             summary := "Analysis completed", lang := "en",
             low_confidence := false, error := none } ∧
    parse_llm_response loadsEmptyObj "\x7b\x7d" "en" ≠ none := by
  refine ⟨by decide, by decide⟩

/-- C7 (amended): the REST batch endpoint accepts exactly batches of 1-50
    items, rejecting others before any pipeline work as a client error; the
    JSON-RPC tools/call batch path rejects only empty or non-list batches
    and does not enforce the 50-item upper bound. -/
theorem batch_bound_validation :
    (∀ (env : AnalyzerEnv) (fault : Nat → Option String) (l : List RawNewsItem),
      exceptIsOk (rest_analyze_endpoint env fault l) = true ↔
        1 ≤ l.length ∧ l.length ≤ 50) ∧
    (∀ (env : AnalyzerEnv) (fault : Nat → Option String) (l : List RawNewsItem),
      exceptIsOk (mcp_batch_endpoint env fault (.items l)) = true ↔ l ≠ []) ∧
    (∀ (env : AnalyzerEnv) (fault : Nat → Option String),
      exceptIsOk (mcp_batch_endpoint env fault .notList) = false) := by
  refine ⟨?_, ?_, fun env fault => rfl⟩
  · intro env fault l
    unfold rest_analyze_endpoint
    split
    · simp [exceptIsOk]; omega
    · simp [exceptIsOk]; omega
  · intro env fault l
    show exceptIsOk (if l.isEmpty then Except.error "Invalid batch news format"
        else Except.ok (analyze_batch env fault l)) = true ↔ l ≠ []
    rcases l with _ | ⟨a, l⟩
    · simp [exceptIsOk]
    · simp [exceptIsOk]

/-- C7 witness: a singleton REST batch is accepted and a non-list JSON-RPC
    batch argument is rejected. -/
theorem batch_bound_validation_witness :
    exceptIsOk (rest_analyze_endpoint envNoKey noFault [⟨some "t", some "s"⟩]) = true ∧
    exceptIsOk (mcp_batch_endpoint envNoKey noFault .notList) = false :=
  ⟨(batch_bound_validation.1 envNoKey noFault [⟨some "t", some "s"⟩]).mpr (by decide),
   batch_bound_validation.2.2 envNoKey noFault⟩

/-- C7 counterexample: a 51-item batch is above the bound, yet the JSON-RPC
    tools/call path accepts it and runs the analysis, while the REST path
    rejects it -- so oversized batches are not rejected on every entry
    path as claimed. -/
theorem mcp_oversized_batch_accepted_cex :
    50 < oversizedBatch.length ∧
    exceptIsOk (mcp_batch_endpoint envNoKey noFault (.items oversizedBatch)) = true ∧
    exceptIsOk (rest_analyze_endpoint envNoKey noFault oversizedBatch) = false := by
  refine ⟨by decide, rfl, by decide⟩

/-- C8: starting from a healthy store with no fresh entry for the item, the
    first analyze_single call computes the pipeline verdict and caches it;
    a second call with the same title and summary within the 43200-second
    TTL window hits the cache and returns that stored verdict unchanged,
    whatever LLM environment the second call runs under (the cache
    short-circuits all later stages). -/
theorem analyze_single_cache_idempotent
    (env env2 : AnalyzerEnv) (now1 now2 : Nat) (title summary : String)
    (st0 : CacheState) (r : RedisState)
    (hredis : st0.redis = some r) (hok : r.faulty = false)
    (hmiss : redisLookup now1 r.store (cacheKey title summary) = none)
    (htime : now2 < now1 + 43200) :
    (analyze_single env now1 title summary st0).1
      = analyze_news_item env title summary ∧
    ∀ st1, analyze_single env now1 title summary st0
        = (analyze_news_item env title summary, st1) →
      (analyze_single env2 now2 title summary st1).1
        = analyze_news_item env title summary := by
  set v := analyze_news_item env title summary with hv
  set store2 := (cacheKey title summary, (v, now1 + 43200)) :: r.store.filter (fun p => !(p.1 == cacheKey title summary)) with hstore2
  set st2 : CacheState := ⟨some ⟨r.faulty, store2, r.rateStore⟩, ⟨st0.stats.hits, st0.stats.misses + 1, st0.stats.total + 1⟩⟩ with hst2
  have hlook2 : redisLookup now2 store2 (cacheKey title summary) = some v := by
    simp [redisLookup, hstore2, List.find?, htime]
  have h1 : analyze_single env now1 title summary st0 = (v, st2) := by
    simp [analyze_single, cache_get, cache_set, hredis, hok, hmiss, hst2, hstore2, hv]
  have hget2 : cache_get now2 st2 (cacheKey title summary)
      = (some v, ⟨st2.redis, ⟨st2.stats.hits + 1, st2.stats.misses, st2.stats.total + 1⟩⟩) := by
    simp [cache_get, hst2, hok, hlook2]
  have h2 : analyze_single env2 now2 title summary st2
      = (v, ⟨st2.redis, ⟨st2.stats.hits + 1, st2.stats.misses, st2.stats.total + 1⟩⟩) := by
    simp only [analyze_single]
    rw [hget2]
  have triv1 : (v, st2).1 = v := by simp
  refine ⟨(congrArg Prod.fst h1).trans triv1, ?_⟩
  intro st1 heq
  have hst1 : st1 = st2 := by
    have hpair := heq.symm.trans h1
    have h5 := congrArg Prod.snd hpair
    simpa using h5
  rw [hst1]
  have trivB : (v, (⟨st2.redis, ⟨st2.stats.hits + 1, st2.stats.misses, st2.stats.total + 1⟩⟩ : CacheState)).1 = v := by simp
  exact (congrArg Prod.fst h2).trans trivB

/-- C8 witness: concrete back-to-back calls at times 0 and 1 on an empty
    healthy store return the same verdict. -/
theorem analyze_single_cache_idempotent_witness :
    (analyze_single envNoKey 0 "a" "b" stOkEmpty).1
      = analyze_news_item envNoKey "a" "b" ∧
    (analyze_single envNoKey 1 "a" "b"
        ⟨some ⟨false, [(cacheKey "a" "b", (analyze_news_item envNoKey "a" "b", 43200))], []⟩, ⟨0, 1, 1⟩⟩).1
      = analyze_news_item envNoKey "a" "b" :=
  ⟨(analyze_single_cache_idempotent envNoKey envNoKey 0 1 "a" "b" stOkEmpty
      ⟨false, [], []⟩ rfl rfl rfl (by omega)).1,
   (analyze_single_cache_idempotent envNoKey envNoKey 0 1 "a" "b" stOkEmpty
      ⟨false, [], []⟩ rfl rfl rfl (by omega)).2
     ⟨some ⟨false, [(cacheKey "a" "b", (analyze_news_item envNoKey "a" "b", 43200))], []⟩, ⟨0, 1, 1⟩⟩
     (by decide)⟩

/-- C9: when the store is unavailable (never connected, or every operation
    raises), rate-limit checks return allowed for every identifier, cache
    gets degrade to misses, cache sets are no-ops, and analyze_single still
    completes returning exactly the pipeline verdict -- the result does
    not depend on store availability. -/
theorem store_unavailability_fail_open
    (env : AnalyzerEnv) (now : Nat) (title summary : String) (st : CacheState)
    (h : st.redis = none ∨ ∃ r, st.redis = some r ∧ r.faulty = true) :
    (∀ identifier limit window,
      (check_rate_limit now st identifier limit window).1 = true) ∧
    (∀ key, (cache_get now st key).1 = none) ∧
    (∀ key value ttl, cache_set now st key value ttl = (false, st)) ∧
    (analyze_single env now title summary st).1
      = analyze_news_item env title summary := by
  rcases h with h | ⟨r, h, hf⟩
  · refine ⟨?_, ?_, ?_, ?_⟩
    · intro identifier limit window
      simp [check_rate_limit, h]
    · intro key
      simp [cache_get, h]
    · intro key value ttl
      simp [cache_set, h]
    · simp [analyze_single, cache_get, cache_set, h]
  · refine ⟨?_, ?_, ?_, ?_⟩
    · intro identifier limit window
      simp [check_rate_limit, h, hf]
    · intro key
      simp [cache_get, h, hf]
    · intro key value ttl
      simp [cache_set, h, hf]
    · simp [analyze_single, cache_get, cache_set, h, hf]

/-- C9 witness: with a disconnected store a concrete rate-limit check is
    allowed, a get misses, and analysis completes. -/
theorem store_unavailability_fail_open_witness :
    (check_rate_limit 0 stDown "client" 100 3600).1 = true ∧
    (cache_get 0 stDown "k").1 = none ∧
    (analyze_single envNoKey 0 "t" "s" stDown).1
      = analyze_news_item envNoKey "t" "s" :=
  ⟨(store_unavailability_fail_open envNoKey 0 "t" "s" stDown (Or.inl rfl)).1
      "client" 100 3600,
   (store_unavailability_fail_open envNoKey 0 "t" "s" stDown (Or.inl rfl)).2.1 "k",
   (store_unavailability_fail_open envNoKey 0 "t" "s" stDown (Or.inl rfl)).2.2.2⟩
